import Mathlib

/-!
# Verification of `seq2struct/models/pretrained_embeddings.py`

A shallow embedding of the pretrained-embeddings adapter module: the
`Embedder` contract and its three variants `GloVe`, `BPEmb` and
`SentencePiece`.  Vectors are modelled with an abstract scalar type `α`
(the code never inspects vector entries, it only moves whole rows
around), Python `None` is `Option.none`, and a Python method that can
raise is modelled in `Except PyError`.  The wrapped third-party
libraries (torchtext, bpemb, the CoreNLP annotation service, torch
tensors) are modelled as abstract backends passed in as data: their
behaviour is a parameter, and the guarantees the code relies on
(index maps staying in range, rows having the advertised width) appear
as explicit hypotheses.
-/

set_option autoImplicit false
set_option maxRecDepth 8192

namespace PretrainedEmbeddings

/-- A Python exception outcome, as far as this module can produce one:
`attributeError n` models `AttributeError` raised when reading the missing
attribute (or the attribute of `None`) called `n`; `indexError` models
out-of-range tensor indexing. -/
inductive PyError where
  | attributeError : String → PyError
  | indexError : PyError
deriving DecidableEq

/-- A torch tensor holding the embedding table: a list of rows together
with the compute device it currently resides on.  `Tensor.to` models
`tensor.to(device)`: same rows, new device. -/
structure Tensor (α : Type) where
  device : String
  rows : List (List α)

/-- `tensor.to(device)`. -/
def Tensor.to {α : Type} (t : Tensor α) (d : String) : Tensor α :=
  { t with device := d }

/-- The `torchtext.vocab.GloVe` backend: vocabulary index `stoi`
(string to internal id, `none` when the word is out of vocabulary),
the vector table, and the advertised embedding width `dim`. -/
structure TorchtextGloVe (α : Type) where
  name : String
  dim : Nat
  stoi : String → Option Nat
  vectors : Tensor α

/-- The CoreNLP client: constructed with an annotator string, it talks
to an external annotation service.  `service text` is the response:
the list of sentences, each a list of token words. -/
structure CoreNLPClient where
  annotators : String
  service : String → List (List String)

/-- State of a `GloVe` embedder instance (class `GloVe`,
`pretrained_embeddings.py` lines 56-97): the loaded torchtext backend,
the lazily created CoreNLP client (`_corenlp_client`, initially `None`),
and the `dim` / `vectors` attributes copied from the backend. -/
structure GloVe (α : Type) where
  glove : TorchtextGloVe α
  corenlp_client : Option CoreNLPClient
  dim : Nat
  vectors : Tensor α

/-- `GloVe.__init__(self, kind)` (lines 58-62): load the torchtext
backend for `kind` (the loader models `torchtext.vocab.GloVe(name=kind)`),
set `_corenlp_client = None`, and copy `dim` and `vectors` from it. -/
def GloVe.init {α : Type} (load : String → TorchtextGloVe α) (kind : String) : GloVe α :=
  let g := load kind
  { glove := g, corenlp_client := none, dim := g.dim, vectors := g.vectors }

/-- The `corenlp_client` property (lines 64-73): on first use construct a
`CoreNLPClient` with annotators `"tokenize ssplit"` (backed by the external
service `svc`) and cache it on the instance; afterwards reuse it.
Returns the client together with the possibly updated instance. -/
def GloVe.corenlpClient {α : Type} (svc : String → List (List String)) (s : GloVe α) :
    CoreNLPClient × GloVe α :=
  match s.corenlp_client with
  | some c => (c, s)
  | none =>
      let c : CoreNLPClient := { annotators := "tokenize ssplit", service := svc }
      (c, { s with corenlp_client := some c })

/-- The value computed by the body of `GloVe.tokenize` (lines 76-78):
annotate the text, then `[tok.word.lower() for sent in ann.sentence for
tok in sent.token]` — flatten the sentences and lower-case each word. -/
def GloVe.tokenizePure (svc : String → List (List String)) (text : String) : List String :=
  ((svc text).flatten).map String.toLower

/-- The body of `GloVe.tokenize` run on an instance: materialises the lazy
client, then computes the token list from the annotation response. -/
def GloVe.tokenizeBody {α : Type} (svc : String → List (List String)) (s : GloVe α)
    (text : String) : List String × GloVe α :=
  let (c, s1) := GloVe.corenlpClient svc s
  (((c.service text).flatten).map String.toLower, s1)

/-- The state of a `functools.lru_cache(maxsize=...)` wrapper: the entries
currently cached, most recently used first (so the last entry is the
least recently used one). -/
structure Lru (κ ω : Type) where
  maxsize : Nat
  entries : List (κ × ω)

/-- The value the cache currently holds for key `k`, if any. -/
def Lru.cachedValue {κ ω : Type} [DecidableEq κ] (c : Lru κ ω) (k : κ) : Option ω :=
  (c.entries.find? (fun e => decide (e.1 = k))).map Prod.snd

/-- The keys currently cached, most recently used first. -/
def Lru.keys {κ ω : Type} (c : Lru κ ω) : List κ :=
  c.entries.map Prod.fst

/-- One call through an `lru_cache`-wrapped function `f` with key `k`:
on a hit, return the cached value, promote the entry to most recently
used, and do not invoke `f`; on a miss, invoke `f`, insert the result as
most recently used, and if the cache would exceed `maxsize`, discard the
least recently used entry.  Returns
`(result, cache afterwards, whether f was invoked)`. -/
def Lru.access {κ ω : Type} [DecidableEq κ] (c : Lru κ ω) (k : κ) (f : κ → ω) :
    ω × Lru κ ω × Bool :=
  match c.cachedValue k with
  | some w =>
      (w, { c with entries := (k, w) :: c.entries.eraseP (fun e => decide (e.1 = k)) }, false)
  | none =>
      (f k,
       { c with
         entries := (k, f k) ::
           (if c.entries.length + 1 > c.maxsize then c.entries.dropLast else c.entries) },
       true)

/-- The cache agrees with the wrapped function on every entry it holds. -/
def Lru.Consistent {κ ω : Type} (f : κ → ω) (c : Lru κ ω) : Prop :=
  ∀ e ∈ c.entries, e.2 = f e.1

/-- `@functools.lru_cache(maxsize=1024)` on the method `GloVe.tokenize`
(line 75) decorates the function at class level, so the cache key is the
argument tuple `(self, text)`; instances are identified here by a
numeral `selfId`.  A call `self.tokenize(text)` is one `Lru.access` with
key `(selfId, text)` against the shared class-level cache; the wrapped
body's value is `GloVe.tokenizePure svc text` (it depends only on the
text and the external service).  Returns
`(token list, cache afterwards, whether the annotation service was hit)`. -/
def GloVe.tokenizeCached (svc : String → List (List String))
    (cache : Lru (Nat × String) (List String)) (selfId : Nat) (text : String) :
    List String × Lru (Nat × String) (List String) × Bool :=
  Lru.access cache (selfId, text) (fun k => GloVe.tokenizePure svc k.2)

/-- The cache `functools.lru_cache(maxsize=1024)` starts with: capacity
1024, no entries. -/
def gloveTokenizeCacheInit : Lru (Nat × String) (List String) :=
  { maxsize := 1024, entries := [] }

/-- `GloVe.untokenize` (lines 80-81): `' '.join(tokens)`. -/
def GloVe.untokenize {α : Type} (_s : GloVe α) (tokens : List String) : String :=
  String.intercalate " " tokens

/-- `GloVe.lookup` (lines 83-87): `i = self.glove.stoi.get(token)`; if the
token is absent return `None`, else return `self.vectors[i]` (tensor
indexing raises `IndexError` when `i` is out of range). -/
def GloVe.lookup {α : Type} (s : GloVe α) (token : String) : Except PyError (Option (List α)) :=
  match s.glove.stoi token with
  | none => .ok none
  | some i =>
      match s.vectors.rows[i]? with
      | some row => .ok (some row)
      | none => .error .indexError

/-- `GloVe.contains` (lines 89-90): `token in self.glove.stoi`. -/
def GloVe.contains {α : Type} (s : GloVe α) (token : String) : Bool :=
  (s.glove.stoi token).isSome

/-- `GloVe.to` (lines 92-93): `self.vectors = self.vectors.to(device)`. -/
def GloVe.to {α : Type} (s : GloVe α) (device : String) : GloVe α :=
  { s with vectors := s.vectors.to device }

/-- `GloVe.requires_training` (lines 95-97): `return False`. -/
def GloVe.requires_training {α : Type} (_s : GloVe α) : Bool :=
  false

/-- `Embedder.add_sentence` (lines 47-49), inherited by `GloVe`: `pass`. -/
def GloVe.add_sentence {α : Type} (s : GloVe α) (_sentence : String) : GloVe α :=
  s

/-- `Embedder.finalize` (lines 51-53), inherited by `GloVe`: `pass`. -/
def GloVe.finalize {α : Type} (s : GloVe α) : GloVe α :=
  s

/-- The `bpemb.BPEmb` backend: its sentencepiece model (`spm`, exposing
`PieceToId` and `unk_id`), its numpy vector table, and its own
encode/decode (subword segmentation and its inverse). -/
structure BpembLib (α : Type) where
  lang : String
  dim : Nat
  vs : Nat
  spmPieceToId : String → Nat
  spmUnkId : Nat
  vectors : List (List α)
  encode : String → List String
  decode : List String → String

/-- State of a `BPEmb` embedder instance (class `BPEmb`, lines 101-127):
the loaded bpemb backend, the `dim` attribute, and the vector table
converted to a torch tensor. -/
structure BPEmb (α : Type) where
  bpemb : BpembLib α
  dim : Nat
  vectors : Tensor α

/-- `BPEmb.__init__(self, dim, vocab_size, lang='en')` (lines 102-105):
load the bpemb backend (the loader models
`bpemb.BPEmb(lang=lang, dim=dim, vs=vocab_size)`), set `dim`, and wrap
the backend's vectors in a (cpu) torch tensor via `torch.from_numpy`. -/
def BPEmb.init {α : Type} (load : String → Nat → Nat → BpembLib α)
    (dim vocab_size : Nat) (lang : String) : BPEmb α :=
  let b := load lang dim vocab_size
  { bpemb := b, dim := dim, vectors := { device := "cpu", rows := b.vectors } }

/-- `BPEmb.tokenize` (lines 107-108): `self.bpemb.encode(text)`. -/
def BPEmb.tokenize {α : Type} (s : BPEmb α) (text : String) : List String :=
  s.bpemb.encode text

/-- `BPEmb.untokenize` (lines 110-111): `self.bpemb.decode(tokens)`. -/
def BPEmb.untokenize {α : Type} (s : BPEmb α) (tokens : List String) : String :=
  s.bpemb.decode tokens

/-- `BPEmb.lookup` (lines 113-117): `i = self.bpemb.spm.PieceToId(token)`;
if `i` equals the reserved unknown id return `None`, else return
`self.vectors[i]`. -/
def BPEmb.lookup {α : Type} (s : BPEmb α) (token : String) : Except PyError (Option (List α)) :=
  if s.bpemb.spmPieceToId token = s.bpemb.spmUnkId then .ok none
  else
    match s.vectors.rows[s.bpemb.spmPieceToId token]? with
    | some row => .ok (some row)
    | none => .error .indexError

/-- `BPEmb.contains` (lines 119-120): `return self.lookup(token) is not
None` — it raises whatever `lookup` raises. -/
def BPEmb.contains {α : Type} (s : BPEmb α) (token : String) : Except PyError Bool :=
  (BPEmb.lookup s token).map Option.isSome

/-- `BPEmb.to` (lines 122-123): `self.vectors = self.vectors.to(device)`. -/
def BPEmb.to {α : Type} (s : BPEmb α) (device : String) : BPEmb α :=
  { s with vectors := s.vectors.to device }

/-- `BPEmb.requires_training` (lines 125-127): `return False`. -/
def BPEmb.requires_training {α : Type} (_s : BPEmb α) : Bool :=
  false

/-- `Embedder.add_sentence`, inherited by `BPEmb`: `pass`. -/
def BPEmb.add_sentence {α : Type} (s : BPEmb α) (_sentence : String) : BPEmb α :=
  s

/-- `Embedder.finalize`, inherited by `BPEmb`: `pass`. -/
def BPEmb.finalize {α : Type} (s : BPEmb α) : BPEmb α :=
  s

/-- A fitted sentencepiece model, as `self.spm` would hold one if the
`SentencePiece` variant were ever wired up: it can encode text. -/
structure SpmModel where
  encode : String → List String

/-- State of a `SentencePiece` embedder instance (class `SentencePiece`,
lines 130-155).  Python attributes are dynamic: `training_sentences` and
`spm` are the attributes its `__init__` assigns; `bpemb` and `vectors`
are the attributes its `lookup`/`untokenize`/`to` *read* but that no
method of the class ever assigns — they are modelled as `Option` fields
whose `none` value means "attribute not set" (reading it raises
`AttributeError`). -/
structure SentencePiece (α : Type) where
  training_sentences : List String
  spm : Option SpmModel
  bpemb : Option (BpembLib α)
  vectors : Option (Tensor α)

/-- `SentencePiece.__init__(self, save_prefix)` (lines 131-133):
`self.training_sentences = []`, `self.spm = None`.  The ` save_prefix`
argument is never used; the `bpemb` and `vectors` attributes are never
assigned. -/
def SentencePiece.init (α : Type) ( save_prefix : String) : SentencePiece α :=
  { training_sentences := [], spm := none, bpemb := none, vectors := none }

/-- `SentencePiece.tokenize` (lines 135-136): `self.spm.encode(text)`.
With `self.spm = None` this raises `AttributeError` (`'NoneType' object
has no attribute 'encode'`). -/
def SentencePiece.tokenize {α : Type} (s : SentencePiece α) (text : String) :
    Except PyError (List String) :=
  match s.spm with
  | none => .error (.attributeError "encode")
  | some m => .ok (m.encode text)

/-- `SentencePiece.untokenize` (lines 138-139): `self.bpemb.decode(tokens)`
— reading the never-assigned attribute `bpemb` raises `AttributeError`. -/
def SentencePiece.untokenize {α : Type} (s : SentencePiece α) (tokens : List String) :
    Except PyError String :=
  match s.bpemb with
  | none => .error (.attributeError "bpemb")
  | some b => .ok (b.decode tokens)

/-- `SentencePiece.lookup` (lines 141-145): `i =
self.bpemb.spm.PieceToId(token)` — reading the never-assigned attribute
`bpemb` raises `AttributeError`; were it set, the body would continue as
`BPEmb.lookup` does, reading the (also never-assigned) `vectors`. -/
def SentencePiece.lookup {α : Type} (s : SentencePiece α) (token : String) :
    Except PyError (Option (List α)) :=
  match s.bpemb with
  | none => .error (.attributeError "bpemb")
  | some b =>
      if b.spmPieceToId token = b.spmUnkId then .ok none
      else
        match s.vectors with
        | none => .error (.attributeError "vectors")
        | some v =>
            match v.rows[b.spmPieceToId token]? with
            | some row => .ok (some row)
            | none => .error .indexError

/-- `SentencePiece.contains` (lines 147-148): `return self.lookup(token)
is not None`. -/
def SentencePiece.contains {α : Type} (s : SentencePiece α) (token : String) :
    Except PyError Bool :=
  (SentencePiece.lookup s token).map Option.isSome

/-- `SentencePiece.to` (lines 150-151): `self.vectors =
self.vectors.to(device)` — reading `self.vectors` raises before any
assignment can happen, so on the error path the state is unchanged. -/
def SentencePiece.to {α : Type} (s : SentencePiece α) (device : String) :
    Except PyError (SentencePiece α) :=
  match s.vectors with
  | none => .error (.attributeError "vectors")
  | some v => .ok { s with vectors := some (v.to device) }

/-- `SentencePiece.requires_training` (lines 153-155): `return False`. -/
def SentencePiece.requires_training {α : Type} (_s : SentencePiece α) : Bool :=
  false

/-- `Embedder.add_sentence`, inherited by `SentencePiece` (not
overridden): `pass`. -/
def SentencePiece.add_sentence {α : Type} (s : SentencePiece α) (_sentence : String) :
    SentencePiece α :=
  s

/-- `Embedder.finalize`, inherited by `SentencePiece` (not overridden):
`pass`. -/
def SentencePiece.finalize {α : Type} (s : SentencePiece α) : SentencePiece α :=
  s

/-- The states a `SentencePiece` instance can be in: freshly constructed,
or after any sequence of `add_sentence`, `finalize` and (successful)
`to` calls — the state-mutating operations of the class.  (`tokenize`,
`untokenize`, `lookup` and `contains` do not assign attributes.) -/
inductive SentencePiece.Reachable {α : Type} : SentencePiece α → Prop where
  | init (p : String) : SentencePiece.Reachable (SentencePiece.init α p)
  | add_sentence {s : SentencePiece α} (x : String) :
      SentencePiece.Reachable s → SentencePiece.Reachable (SentencePiece.add_sentence s x)
  | finalize {s : SentencePiece α} :
      SentencePiece.Reachable s → SentencePiece.Reachable (SentencePiece.finalize s)
  | toOp {s s2 : SentencePiece α} (d : String) :
      SentencePiece.Reachable s → SentencePiece.to s d = .ok s2 → SentencePiece.Reachable s2

/-! ### Concrete instances (used to exercise the theorems on closed inputs) -/

/-- A concrete torchtext backend with a one-word vocabulary. -/
def gloveBackendW : TorchtextGloVe Int :=
  { name := "6B", dim := 2,
    stoi := fun t => if t = "the" then some 0 else none,
    vectors := { device := "cpu", rows := [[1, 2]] } }

/-- A concrete `GloVe` instance built from `gloveBackendW`. -/
def gloveW : GloVe Int :=
  GloVe.init (fun _ => gloveBackendW) "6B"

/-- A concrete bpemb backend with three pieces, id 0 being the reserved
unknown id. -/
def bpembLibW : BpembLib Int :=
  { lang := "en", dim := 2, vs := 3,
    spmPieceToId := fun t => if t = "_the" then 1 else if t = "_a" then 2 else 0,
    spmUnkId := 0,
    vectors := [[0, 0], [3, 4], [5, 6]],
    encode := fun t => if t = "" then [] else [t],
    decode := fun ts => String.intercalate " " ts }

/-- A concrete `BPEmb` instance built from `bpembLibW`. -/
def bpembW : BPEmb Int :=
  BPEmb.init (fun _ _ _ => bpembLibW) 2 3 "en"

/-- A freshly constructed `SentencePiece` instance. -/
def spW : SentencePiece Int :=
  SentencePiece.init Int "model"

/-- A concrete annotation service that returns no sentences for any
input (so every tokenization is the empty token list). -/
def svcW : String → List (List String) :=
  fun _ => []

/-- A tokenize cache holding one entry, keyed by instance `0`. -/
def hitCacheW : Lru (Nat × String) (List String) :=
  { maxsize := 1024, entries := [((0, "a"), [])] }

/-- A full tokenize cache: 1024 entries, all keyed by instance `0`. -/
def fullCacheW : Lru (Nat × String) (List String) :=
  { maxsize := 1024, entries := List.replicate 1024 ((0, "a"), []) }

/-- A full tokenize cache with 1024 distinct keys for the 1024 distinct
instances `0..1023`; the least-recently-used entry is the one of
instance `1023`. -/
def sharedCacheW : Lru (Nat × String) (List String) :=
  { maxsize := 1024, entries := (List.range 1024).map (fun n => ((n, "a"), [])) }

/-! ### Lemmas about the `lru_cache` model -/

/-- A consistent cache only stores values of the wrapped function. -/
theorem Lru.cachedValue_eq_of_consistent {κ ω : Type} [DecidableEq κ] {f : κ → ω}
    {c : Lru κ ω} (hc : c.Consistent f) {k : κ} {w : ω}
    (h : c.cachedValue k = some w) : w = f k := by
  unfold Lru.cachedValue at h
  cases hf : c.entries.find? (fun e => decide (e.1 = k)) with
  | none => rw [hf] at h; cases h
  | some e =>
      rw [hf] at h
      have he : e.2 = w := by simpa using h
      have hp := List.find?_some hf
      have hk : e.1 = k := of_decide_eq_true (by simpa using hp)
      rw [← he, ← hk]
      exact hc e (List.mem_of_find?_eq_some hf)

/-- A key that is not cached has no cached value. -/
theorem Lru.cachedValue_eq_none {κ ω : Type} [DecidableEq κ]
    {c : Lru κ ω} {k : κ} (hk : k ∉ c.keys) : c.cachedValue k = none := by
  unfold Lru.cachedValue
  have hf : c.entries.find? (fun e => decide (e.1 = k)) = none := by
    refine List.find?_eq_none.mpr ?_
    intro e he hd
    exact hk (List.mem_map.mpr ⟨e, he, of_decide_eq_true hd⟩)
  rw [hf]
  rfl

/-- A cached key has a cached value. -/
theorem Lru.cachedValue_isSome {κ ω : Type} [DecidableEq κ]
    {c : Lru κ ω} {k : κ} (hk : k ∈ c.keys) : (c.cachedValue k).isSome = true := by
  unfold Lru.cachedValue
  rcases List.mem_map.mp hk with ⟨e, he, hek⟩
  have hf : (c.entries.find? (fun e => decide (e.1 = k))).isSome = true :=
    List.find?_isSome.mpr ⟨e, he, decide_eq_true hek⟩
  cases h : c.entries.find? (fun e => decide (e.1 = k)) with
  | none => rw [h] at hf; cases hf
  | some e2 => rfl

/-- On a consistent cache, an `lru_cache` call returns exactly what the
wrapped function would return. -/
theorem Lru.access_result {κ ω : Type} [DecidableEq κ] {f : κ → ω}
    {c : Lru κ ω} (hc : c.Consistent f) (k : κ) :
    (c.access k f).1 = f k := by
  unfold Lru.access
  cases h : c.cachedValue k with
  | none => rfl
  | some w => exact Lru.cachedValue_eq_of_consistent hc h

/-- An `lru_cache` call keeps the cache consistent with the wrapped
function. -/
theorem Lru.access_consistent {κ ω : Type} [DecidableEq κ] {f : κ → ω}
    {c : Lru κ ω} (hc : c.Consistent f) (k : κ) :
    ((c.access k f).2.1).Consistent f := by
  unfold Lru.access
  cases h : c.cachedValue k with
  | some w =>
      intro e he
      rcases List.mem_cons.mp he with rfl | he2
      · exact Lru.cachedValue_eq_of_consistent hc h
      · exact hc e ((List.eraseP_sublist c.entries).subset he2)
  | none =>
      intro e he
      rcases List.mem_cons.mp he with rfl | he2
      · rfl
      · refine hc e ?_
        by_cases hfull : c.entries.length + 1 > c.maxsize
        · rw [if_pos hfull] at he2
          exact (List.dropLast_sublist c.entries).subset he2
        · rw [if_neg hfull] at he2
          exact he2

/-- On a hit, an `lru_cache` call does not invoke the wrapped function. -/
theorem Lru.access_not_invoked {κ ω : Type} [DecidableEq κ] (f : κ → ω)
    {c : Lru κ ω} {k : κ} (hk : k ∈ c.keys) :
    (c.access k f).2.2 = false := by
  unfold Lru.access
  cases h : c.cachedValue k with
  | some w => rfl
  | none =>
      have := Lru.cachedValue_isSome (c := c) (k := k) hk
      rw [h] at this
      cases this

/-- An `lru_cache` call never pushes the cache beyond its capacity. -/
theorem Lru.access_length_le {κ ω : Type} [DecidableEq κ] (f : κ → ω)
    {c : Lru κ ω} (k : κ) (hm : 1 ≤ c.maxsize)
    (h : c.entries.length ≤ c.maxsize) :
    ((c.access k f).2.1).entries.length ≤ c.maxsize := by
  unfold Lru.access
  cases hcv : c.cachedValue k with
  | some w =>
      unfold Lru.cachedValue at hcv
      cases hf : c.entries.find? (fun e => decide (e.1 = k)) with
      | none => rw [hf] at hcv; cases hcv
      | some e =>
          have hmem := List.mem_of_find?_eq_some hf
          have hp := List.find?_some hf
          have hlen := List.length_eraseP_add_one (p := fun e => decide (e.1 = k)) hmem hp
          simp only [List.length_cons]
          omega
  | none =>
      by_cases hfull : c.entries.length + 1 > c.maxsize
      · simp only [if_pos hfull, List.length_cons, List.length_dropLast]
        omega
      · simp only [if_neg hfull, List.length_cons]
        omega

/-- On a miss against a full cache, an `lru_cache` call invokes the
wrapped function, inserts the new entry in front, and discards exactly
the least-recently-used entry (the last one). -/
theorem Lru.access_evicts {κ ω : Type} [DecidableEq κ] (f : κ → ω)
    {c : Lru κ ω} {k : κ} (hk : k ∉ c.keys)
    (hfull : c.entries.length = c.maxsize) :
    ((c.access k f).2.1).entries = (k, f k) :: c.entries.dropLast ∧
      (c.access k f).2.2 = true := by
  unfold Lru.access
  rw [Lru.cachedValue_eq_none hk]
  have hgt : c.entries.length + 1 > c.maxsize := by omega
  rw [if_pos hgt]
  exact ⟨rfl, rfl⟩

/-! ### Lemmas about reachable `SentencePiece` states -/

/-- Every reachable `SentencePiece` state is exactly the freshly
constructed one: the sentence list stays empty, `spm` stays `None`, and
the `bpemb` / `vectors` attributes are never assigned. -/
theorem SentencePiece.reachable_spec {α : Type} {s : SentencePiece α}
    (h : s.Reachable) :
    s.training_sentences = [] ∧ s.spm = none ∧ s.bpemb = none ∧ s.vectors = none := by
  induction h with
  | init p => exact ⟨rfl, rfl, rfl, rfl⟩
  | add_sentence x _ ih => exact ih
  | finalize _ ih => exact ih
  | toOp d _ heq ih =>
      exfalso
      rcases ih with ⟨-, -, -, hv⟩
      unfold SentencePiece.to at heq
      rw [hv] at heq
      simp at heq

/-! ### Unfolding equations for `GloVe.lookup` -/

/-- `GloVe.lookup` on a vocabulary miss. -/
theorem GloVe.lookup_eq_of_stoi_none {α : Type} {gs : GloVe α} {t : String}
    (h : gs.glove.stoi t = none) : gs.lookup t = .ok none := by
  unfold GloVe.lookup
  rw [h]

/-- `GloVe.lookup` on a vocabulary hit reduces to the table indexing. -/
theorem GloVe.lookup_eq_of_stoi_some {α : Type} {gs : GloVe α} {t : String} {i : Nat}
    (h : gs.glove.stoi t = some i) :
    gs.lookup t = (match gs.vectors.rows[i]? with
                   | some row => .ok (some row)
                   | none => .error .indexError) := by
  unfold GloVe.lookup
  rw [h]

/-! ### The claims -/

/-- C1: for every variant (GloVe, BPEmb, SentencePiece) and every token
`t`, `contains(t)` returns `True` exactly when `lookup(t)` returns a
(non-`None`) vector.  For `GloVe` this uses the torchtext guarantee that
`stoi` only produces indices that are in range of the vector table; for
the other two variants `contains` is literally defined from `lookup`. -/
theorem claim_C1_contains_iff_lookup {α : Type}
    (gs : GloVe α)
    (hg : ∀ t i, gs.glove.stoi t = some i → i < gs.vectors.rows.length)
    (bs : BPEmb α) (ss : SentencePiece α) (t : String) :
    (gs.contains t = true ↔ ∃ v, gs.lookup t = .ok (some v)) ∧
    (bs.contains t = .ok true ↔ ∃ v, bs.lookup t = .ok (some v)) ∧
    (ss.contains t = .ok true ↔ ∃ v, ss.lookup t = .ok (some v)) := by
  refine ⟨?_, ?_, ?_⟩
  · unfold GloVe.contains
    cases hst : gs.glove.stoi t with
    | none =>
        rw [GloVe.lookup_eq_of_stoi_none hst]
        simp
    | some i =>
        have hi := hg t i hst
        rw [GloVe.lookup_eq_of_stoi_some hst]
        cases hrow : gs.vectors.rows[i]? with
        | none =>
            have hlen := List.getElem?_eq_none_iff.mp hrow
            omega
        | some row => simp
  · unfold BPEmb.contains
    cases hb : bs.lookup t with
    | error e => simp [Except.map]
    | ok o => cases o <;> simp [Except.map]
  · unfold SentencePiece.contains
    cases hb : ss.lookup t with
    | error e => simp [Except.map]
    | ok o => cases o <;> simp [Except.map]

/-- Witness for C1 on concrete instances of the three variants. -/
theorem claim_C1_witness :
    (gloveW.contains "the" = true ↔ ∃ v, gloveW.lookup "the" = .ok (some v)) ∧
    (bpembW.contains "the" = .ok true ↔ ∃ v, bpembW.lookup "the" = .ok (some v)) ∧
    (spW.contains "the" = .ok true ↔ ∃ v, spW.lookup "the" = .ok (some v)) :=
  claim_C1_contains_iff_lookup gloveW
    (by
      intro t i h
      simp only [gloveW, GloVe.init, gloveBackendW] at h ⊢
      split at h
      · cases h; decide
      · cases h)
    bpembW spW "the"

/-- C2: for every variant, a successful (non-`None`) `lookup` returns a
vector of exactly the instance's `dim` width — given the wrapped
libraries' guarantee that every row of the loaded table has that width.
The reachable `SentencePiece` states never return a vector at all, so
the property is vacuous there. -/
theorem claim_C2_lookup_width {α : Type}
    (gs : GloVe α) (hgw : ∀ row ∈ gs.vectors.rows, row.length = gs.dim)
    (bs : BPEmb α) (hbw : ∀ row ∈ bs.vectors.rows, row.length = bs.dim)
    (ss : SentencePiece α) (hss : ss.Reachable)
    (t : String) (v : List α) :
    (gs.lookup t = .ok (some v) → v.length = gs.dim) ∧
    (bs.lookup t = .ok (some v) → v.length = bs.dim) ∧
    ss.lookup t ≠ .ok (some v) := by
  refine ⟨?_, ?_, ?_⟩
  · intro h
    cases hst : gs.glove.stoi t with
    | none =>
        rw [GloVe.lookup_eq_of_stoi_none hst] at h
        cases h
    | some i =>
        rw [GloVe.lookup_eq_of_stoi_some hst] at h
        cases hrow : gs.vectors.rows[i]? with
        | none => rw [hrow] at h; cases h
        | some row =>
            rw [hrow] at h
            have hv : row = v := by simpa using h
            subst hv
            exact hgw row (List.getElem?_mem hrow)
  · intro h
    unfold BPEmb.lookup at h
    by_cases hu : bs.bpemb.spmPieceToId t = bs.bpemb.spmUnkId
    · rw [if_pos hu] at h; cases h
    · rw [if_neg hu] at h
      cases hrow : bs.vectors.rows[bs.bpemb.spmPieceToId t]? with
      | none => rw [hrow] at h; cases h
      | some row =>
          rw [hrow] at h
          have hv : row = v := by simpa using h
          subst hv
          exact hbw row (List.getElem?_mem hrow)
  · have hb := (SentencePiece.reachable_spec hss).2.2.1
    intro h
    unfold SentencePiece.lookup at h
    rw [hb] at h
    cases h

/-- Witness for C2: concrete lookups return full-width vectors. -/
theorem claim_C2_witness :
    ([1, 2] : List Int).length = gloveW.dim ∧
    ([3, 4] : List Int).length = bpembW.dim ∧
    spW.lookup "the" ≠ .ok (some [1, 2]) :=
  ⟨(claim_C2_lookup_width gloveW (by decide) bpembW (by decide) spW
      (@SentencePiece.Reachable.init Int "model") "the" [1, 2]).1 rfl,
   (claim_C2_lookup_width gloveW (by decide) bpembW (by decide) spW
      (@SentencePiece.Reachable.init Int "model") "_the" [3, 4]).2.1 rfl,
   (claim_C2_lookup_width gloveW (by decide) bpembW (by decide) spW
      (@SentencePiece.Reachable.init Int "model") "the" [1, 2]).2.2⟩

/-- C3 as frozen is false on the code: the `SentencePiece` variant's
`tokenize` reads `self.spm`, which `__init__` set to `None`, so
`tokenize("")` raises `AttributeError` instead of returning an empty
sequence. -/
theorem claim_C3_counterexample :
    SentencePiece.tokenize (SentencePiece.init Int "save") "" =
      .error (.attributeError "encode") ∧
    SentencePiece.tokenize (SentencePiece.init Int "save") "" ≠ .ok [] :=
  ⟨rfl, fun h => Except.noConfusion h⟩

/-- C3 amended: `tokenize("")` returns an empty sequence for the GloVe
variant (both through the memoizing wrapper and in the underlying body,
given that the annotation service returns no sentences for empty input)
and for the BPEmb variant (given its subword model encodes `""` to no
pieces); the SentencePiece variant's `tokenize` instead raises
`AttributeError` in every reachable state because `self.spm` is `None`. -/
theorem claim_C3_amended {α : Type}
    (svc : String → List (List String)) (hsvc : svc "" = [])
    (cache : Lru (Nat × String) (List String))
    (hc : cache.Consistent (fun k => GloVe.tokenizePure svc k.2)) (i : Nat)
    (bs : BPEmb α) (hb : bs.bpemb.encode "" = [])
    {ss : SentencePiece α} (hss : ss.Reachable) :
    GloVe.tokenizePure svc "" = [] ∧
    (GloVe.tokenizeCached svc cache i "").1 = [] ∧
    bs.tokenize "" = [] ∧
    ss.tokenize "" = .error (.attributeError "encode") := by
  have hpure : GloVe.tokenizePure svc "" = [] := by
    unfold GloVe.tokenizePure
    rw [hsvc]
    rfl
  refine ⟨hpure, ?_, ?_, ?_⟩
  · unfold GloVe.tokenizeCached
    rw [Lru.access_result hc (i, "")]
    exact hpure
  · unfold BPEmb.tokenize
    exact hb
  · have hspm := (SentencePiece.reachable_spec hss).2.1
    unfold SentencePiece.tokenize
    rw [hspm]

/-- Witness for the amended C3 on concrete instances. -/
theorem claim_C3_amended_witness :
    GloVe.tokenizePure svcW "" = [] ∧
    (GloVe.tokenizeCached svcW gloveTokenizeCacheInit 0 "").1 = [] ∧
    bpembW.tokenize "" = [] ∧
    spW.tokenize "" = .error (.attributeError "encode") :=
  claim_C3_amended svcW rfl gloveTokenizeCacheInit
    (fun e he => absurd he (List.not_mem_nil e)) 0 bpembW rfl
    (@SentencePiece.Reachable.init Int "model")

/-- C4 as frozen is false on the code: the `SentencePiece` variant's
`lookup` raises `AttributeError` (its `bpemb` attribute was never
assigned) for every token, including absent ones, instead of returning
`None`. -/
theorem claim_C4_counterexample :
    SentencePiece.lookup (SentencePiece.init Int "save") "tok" =
      .error (.attributeError "bpemb") ∧
    SentencePiece.lookup (SentencePiece.init Int "save") "tok" ≠ .ok none :=
  ⟨rfl, fun h => Except.noConfusion h⟩

/-- C4 amended: for the GloVe and BPEmb variants a lookup miss (word not
in `stoi`; piece id equal to the reserved unknown id) returns the `None`
sentinel and raises nothing; the SentencePiece variant's `lookup`
instead raises `AttributeError` for every token in every reachable
state. -/
theorem claim_C4_amended {α : Type}
    (gs : GloVe α) (bs : BPEmb α) {ss : SentencePiece α} (hss : ss.Reachable)
    (t : String) :
    (gs.glove.stoi t = none → gs.lookup t = .ok none) ∧
    (bs.bpemb.spmPieceToId t = bs.bpemb.spmUnkId → bs.lookup t = .ok none) ∧
    ss.lookup t = .error (.attributeError "bpemb") := by
  refine ⟨?_, ?_, ?_⟩
  · intro h
    unfold GloVe.lookup
    rw [h]
  · intro h
    unfold BPEmb.lookup
    rw [if_pos h]
  · have hb := (SentencePiece.reachable_spec hss).2.2.1
    unfold SentencePiece.lookup
    rw [hb]

/-- Witness for the amended C4: lookup misses on concrete instances. -/
theorem claim_C4_witness :
    gloveW.lookup "zzz" = .ok none ∧
    bpembW.lookup "zzz" = .ok none ∧
    spW.lookup "zzz" = .error (.attributeError "bpemb") :=
  ⟨(claim_C4_amended gloveW bpembW (@SentencePiece.Reachable.init Int "model") "zzz").1 rfl,
   (claim_C4_amended gloveW bpembW (@SentencePiece.Reachable.init Int "model") "zzz").2.1 rfl,
   (claim_C4_amended gloveW bpembW (@SentencePiece.Reachable.init Int "model") "zzz").2.2⟩

/-- C5: `requires_training` is `False` for all three variants, on every
instance state, and no operation (`to`, `add_sentence`, `finalize`)
changes it. -/
theorem claim_C5_requires_training_false {α : Type}
    (gs : GloVe α) (bs : BPEmb α) (ss : SentencePiece α) (d x : String) :
    gs.requires_training = false ∧
    bs.requires_training = false ∧
    ss.requires_training = false ∧
    (gs.to d).requires_training = gs.requires_training ∧
    (gs.add_sentence x).requires_training = gs.requires_training ∧
    (gs.finalize).requires_training = gs.requires_training ∧
    (bs.to d).requires_training = bs.requires_training ∧
    (bs.add_sentence x).requires_training = bs.requires_training ∧
    (bs.finalize).requires_training = bs.requires_training ∧
    (ss.add_sentence x).requires_training = ss.requires_training ∧
    (ss.finalize).requires_training = ss.requires_training :=
  ⟨rfl, rfl, rfl, rfl, rfl, rfl, rfl, rfl, rfl, rfl, rfl⟩

/-- C6: the memoization of `GloVe.tokenize`.  On any cache consistent
with the underlying tokenization (as the initially empty cache is, and
as every call keeps it), a `tokenize` call (1) returns exactly the
tokenization of the text — so repeated calls on the same string return
identical results — and (2) keeps the cache consistent; (3) while a
string is cached, a call on it does not invoke the external annotation
service; (4) the cache never grows beyond 1024 distinct inputs; and
(5) a miss against a full cache (a 1025th distinct input) invokes the
service and evicts exactly the least-recently-used entry. -/
theorem claim_C6_tokenize_memoized
    (svc : String → List (List String)) (cache : Lru (Nat × String) (List String))
    (i : Nat) (t : String)
    (hmax : cache.maxsize = 1024)
    (hc : cache.Consistent (fun k => GloVe.tokenizePure svc k.2)) :
    (GloVe.tokenizeCached svc cache i t).1 = GloVe.tokenizePure svc t ∧
    ((GloVe.tokenizeCached svc cache i t).2.1).Consistent
      (fun k => GloVe.tokenizePure svc k.2) ∧
    ((i, t) ∈ cache.keys → (GloVe.tokenizeCached svc cache i t).2.2 = false) ∧
    (cache.entries.length ≤ 1024 →
      ((GloVe.tokenizeCached svc cache i t).2.1).entries.length ≤ 1024) ∧
    (cache.entries.length = 1024 → (i, t) ∉ cache.keys →
      ((GloVe.tokenizeCached svc cache i t).2.1).entries =
        ((i, t), GloVe.tokenizePure svc t) :: cache.entries.dropLast ∧
      (GloVe.tokenizeCached svc cache i t).2.2 = true) := by
  unfold GloVe.tokenizeCached
  refine ⟨Lru.access_result hc (i, t), Lru.access_consistent hc (i, t), ?_, ?_, ?_⟩
  · intro hk
    exact Lru.access_not_invoked _ hk
  · intro hlen
    have h2 := Lru.access_length_le (c := cache)
      (fun k => GloVe.tokenizePure svc k.2) (i, t) (by omega) (by omega)
    rw [hmax] at h2
    exact h2
  · intro hfull hk
    exact Lru.access_evicts _ hk (by omega)

/-- Witness for C6: a hit does not invoke the service; a miss against a
full cache evicts the least-recently-used entry. -/
theorem claim_C6_witness :
    (GloVe.tokenizeCached svcW hitCacheW 0 "a").2.2 = false ∧
    ((GloVe.tokenizeCached svcW fullCacheW 0 "b").2.1).entries =
      ((0, "b"), GloVe.tokenizePure svcW "b") :: fullCacheW.entries.dropLast :=
  ⟨(claim_C6_tokenize_memoized svcW hitCacheW 0 "a" rfl
      (by intro e he; rcases List.mem_singleton.mp he with rfl; rfl)).2.2.1
      (by decide),
   ((claim_C6_tokenize_memoized svcW fullCacheW 0 "b" rfl
      (by
        intro e he
        have he2 := (List.mem_replicate.mp he).2
        subst he2
        rfl)).2.2.2.2
      (List.length_replicate 1024 ((0, "a"), []))
      (by
        intro hin
        have h1 : ((0 : Nat), "b") ∈ List.replicate 1024 ((0 : Nat), "a") := by
          unfold fullCacheW Lru.keys at hin
          rwa [List.map_replicate] at hin
        have h2 := (List.mem_replicate.mp h1).2
        simp at h2)).1⟩

/-- C8: the `lru_cache` sits on the class, not on the instance, so the
1024-entry capacity is shared by all `GloVe` instances: the total number
of cached entries over all instances never exceeds 1024, and when the
least-recently-used entry of a full cache belongs to instance `j`, a
missing `tokenize` call by any instance `i` — another instance included —
evicts instance `j`'s entry. -/
theorem claim_C8_shared_cache
    (svc : String → List (List String)) (cache : Lru (Nat × String) (List String))
    (i j : Nat) (t u : String) (w : List String)
    (hmax : cache.maxsize = 1024) :
    (cache.entries.length ≤ 1024 →
      ((GloVe.tokenizeCached svc cache i t).2.1).entries.length ≤ 1024) ∧
    (cache.entries.length = 1024 → (i, t) ∉ cache.keys → cache.keys.Nodup →
      cache.entries.getLast? = some ((j, u), w) →
      (j, u) ∈ cache.keys ∧
      (j, u) ∉ ((GloVe.tokenizeCached svc cache i t).2.1).keys) := by
  constructor
  · intro hlen
    unfold GloVe.tokenizeCached
    have h2 := Lru.access_length_le (c := cache)
      (fun k => GloVe.tokenizePure svc k.2) (i, t) (by omega) (by omega)
    rw [hmax] at h2
    exact h2
  · intro hfull hk hnd hlast
    unfold GloVe.tokenizeCached
    have hev := Lru.access_evicts (c := cache)
      (fun k => GloVe.tokenizePure svc k.2) hk (by omega)
    have hkey_last : cache.keys.getLast? = some (j, u) := by
      unfold Lru.keys
      rw [List.getLast?_map, hlast]
      rfl
    have hsplit : cache.keys.dropLast ++ [(j, u)] = cache.keys :=
      List.dropLast_append_getLast? (j, u) hkey_last
    have hmem : (j, u) ∈ cache.keys := by
      rw [← hsplit]
      exact List.mem_append_right _ (List.mem_singleton_self _)
    refine ⟨hmem, ?_⟩
    have hkeys_new :
        ((Lru.access cache (i, t) (fun k => GloVe.tokenizePure svc k.2)).2.1).keys =
          (i, t) :: cache.keys.dropLast := by
      unfold Lru.keys
      rw [hev.1, List.map_cons, List.map_dropLast]
    rw [hkeys_new]
    intro hin
    rcases List.mem_cons.mp hin with heq | hin2
    · exact hk (heq ▸ hmem)
    · rw [← hsplit] at hnd
      exact (List.nodup_append.mp hnd).2.2 hin2 (List.mem_singleton_self _)

/-- Witness for C8: with the shared cache full of the 1024 entries of
instances `0..1023`, a call by instance `1024` evicts the entry of
instance `1023`. -/
theorem claim_C8_witness :
    (1023, "a") ∈ sharedCacheW.keys ∧
    (1023, "a") ∉ ((GloVe.tokenizeCached svcW sharedCacheW 1024 "b").2.1).keys :=
  (claim_C8_shared_cache svcW sharedCacheW 1024 1023 "b" "a" [] rfl).2
    (by
      show ((List.range 1024).map (fun n => ((n, "a"), ([] : List String)))).length = 1024
      rw [List.length_map, List.length_range])
    (by
      intro hin
      unfold sharedCacheW Lru.keys at hin
      rw [List.map_map] at hin
      rcases List.mem_map.mp hin with ⟨n, hn, he⟩
      simp [Function.comp] at he)
    (by
      have hkeys : sharedCacheW.keys =
          (List.range 1024).map (fun n => ((n, "a") : Nat × String)) := by
        unfold sharedCacheW Lru.keys
        rw [List.map_map]
        rfl
      rw [hkeys]
      exact List.Nodup.map
        (fun a b h => by simpa using congrArg Prod.fst h)
        (List.nodup_range 1024))
    (by
      show ((List.range (1023 + 1)).map (fun n => ((n, "a"), ([] : List String)))).getLast? =
        some ((1023, "a"), [])
      rw [List.range_succ, List.map_append]
      simp only [List.map_cons, List.map_nil]
      rw [List.getLast?_concat])

/-- C7: in every reachable `SentencePiece` state the fields read by
`lookup` and `untokenize` (`bpemb`, and through it the segmentation
model and the `vectors` table) were never assigned, so both raise
`AttributeError` on every input instead of returning a result. -/
theorem claim_C7_lookup_untokenize_raise {α : Type}
    {s : SentencePiece α} (hs : s.Reachable) :
    s.bpemb = none ∧ s.vectors = none ∧
    (∀ t, s.lookup t = .error (.attributeError "bpemb")) ∧
    (∀ ts, s.untokenize ts = .error (.attributeError "bpemb")) := by
  obtain ⟨-, -, hb, hv⟩ := SentencePiece.reachable_spec hs
  refine ⟨hb, hv, ?_, ?_⟩
  · intro t
    unfold SentencePiece.lookup
    rw [hb]
  · intro ts
    unfold SentencePiece.untokenize
    rw [hb]

/-- Witness for C7 on a freshly constructed instance. -/
theorem claim_C7_witness :
    spW.bpemb = none ∧ spW.vectors = none ∧
    spW.lookup "x" = .error (.attributeError "bpemb") ∧
    spW.untokenize ["x"] = .error (.attributeError "bpemb") :=
  ⟨(claim_C7_lookup_untokenize_raise (@SentencePiece.Reachable.init Int "model")).1,
   (claim_C7_lookup_untokenize_raise (@SentencePiece.Reachable.init Int "model")).2.1,
   (claim_C7_lookup_untokenize_raise (@SentencePiece.Reachable.init Int "model")).2.2.1 "x",
   (claim_C7_lookup_untokenize_raise (@SentencePiece.Reachable.init Int "model")).2.2.2 ["x"]⟩

/-- C9: the `SentencePiece` constructor ignores its ` save_prefix`
argument: any two constructed instances are equal (empty sentence list,
no fitted model), and every operation behaves identically on them. -/
theorem claim_C9_save_prefix_ignored {α : Type} (p q t x d : String) (ts : List String) :
    SentencePiece.init α p = SentencePiece.init α q ∧
    (SentencePiece.init α p).training_sentences = [] ∧
    (SentencePiece.init α p).spm = none ∧
    SentencePiece.tokenize (SentencePiece.init α p) t =
      SentencePiece.tokenize (SentencePiece.init α q) t ∧
    SentencePiece.untokenize (SentencePiece.init α p) ts =
      SentencePiece.untokenize (SentencePiece.init α q) ts ∧
    SentencePiece.lookup (SentencePiece.init α p) t =
      SentencePiece.lookup (SentencePiece.init α q) t ∧
    SentencePiece.contains (SentencePiece.init α p) t =
      SentencePiece.contains (SentencePiece.init α q) t ∧
    SentencePiece.add_sentence (SentencePiece.init α p) x =
      SentencePiece.add_sentence (SentencePiece.init α q) x ∧
    SentencePiece.finalize (SentencePiece.init α p) =
      SentencePiece.finalize (SentencePiece.init α q) ∧
    SentencePiece.to (SentencePiece.init α p) d =
      SentencePiece.to (SentencePiece.init α q) d ∧
    SentencePiece.requires_training (SentencePiece.init α p) =
      SentencePiece.requires_training (SentencePiece.init α q) :=
  ⟨rfl, rfl, rfl, rfl, rfl, rfl, rfl, rfl, rfl, rfl, rfl⟩

/-- C10: `add_sentence` and `finalize` are the inherited base-class
no-ops in all three variants — they return the state unchanged — and
consequently the `training_sentences` list of a `SentencePiece`
instance stays empty in every reachable state. -/
theorem claim_C10_training_ops_noop {α : Type}
    (gs : GloVe α) (bs : BPEmb α) (ss : SentencePiece α) (x : String)
    {s : SentencePiece α} (hs : s.Reachable) :
    gs.add_sentence x = gs ∧ gs.finalize = gs ∧
    bs.add_sentence x = bs ∧ bs.finalize = bs ∧
    ss.add_sentence x = ss ∧ ss.finalize = ss ∧
    s.training_sentences = [] :=
  ⟨rfl, rfl, rfl, rfl, rfl, rfl, (SentencePiece.reachable_spec hs).1⟩

/-- Witness for C10 on concrete instances. -/
theorem claim_C10_witness :
    gloveW.add_sentence "s" = gloveW ∧ gloveW.finalize = gloveW ∧
    bpembW.add_sentence "s" = bpembW ∧ bpembW.finalize = bpembW ∧
    spW.add_sentence "s" = spW ∧ spW.finalize = spW ∧
    spW.training_sentences = [] :=
  claim_C10_training_ops_noop gloveW bpembW spW "s"
    (@SentencePiece.Reachable.init Int "model")

end PretrainedEmbeddings
